import Mathlib

/-!
Verification of the XPORT (SAS transport) decoder `src/xport.py` against its
natural-language specification.  The Python source is shallowly embedded:
bytes are natural numbers (< 256 for real inputs), byte strings are
`List Nat`, Python ints are `Nat`/`Int` with explicit masking, fallible code
returns `Except`/`Option`, and the process-global `DOCUMENT['encoding']`
is threaded explicitly.
-/

set_option maxRecDepth 10000

abbrev Bytes := List Nat

instance exceptDecEq {ε α : Type} [DecidableEq ε] [DecidableEq α] :
    DecidableEq (Except ε α) := fun x y =>
  match x, y with
  | .ok a, .ok b =>
    if h : a = b then .isTrue (by rw [h]) else .isFalse (fun hh => h (Except.ok.inj hh))
  | .error a, .error b =>
    if h : a = b then .isTrue (by rw [h]) else .isFalse (fun hh => h (Except.error.inj hh))
  | .ok _, .error _ => .isFalse Except.noConfusion
  | .error _, .ok _ => .isFalse Except.noConfusion

/-- ASCII bytes of a Lean string (all source literals are ASCII). -/
def ascii (s : String) : Bytes := s.data.map Char.toNat

/-- Python `bytes.rstrip` with an explicit predicate for the stripped set. -/
def rstripBy (p : Nat → Bool) (l : Bytes) : Bytes :=
  (l.reverse.dropWhile p).reverse

/-- Python default whitespace set for `bytes.rstrip()`. -/
def isPyWs (b : Nat) : Bool :=
  b == 32 || b == 9 || b == 10 || b == 13 || b == 11 || b == 12

/-- `record.rstrip()` — strip trailing ASCII whitespace. -/
def rstripWs (l : Bytes) : Bytes := rstripBy isPyWs l

/-- `bytestring.rstrip(b'\0')` — strip trailing NUL bytes. -/
def rstripNul (l : Bytes) : Bytes := rstripBy (fun b => b == 0) l

/-- `value.rstrip(b'\0 ')` — strip trailing NULs and spaces. -/
def rstripNulSpace (l : Bytes) : Bytes := rstripBy (fun b => b == 0 || b == 32) l

/-- Big-endian interpretation of a byte string, `struct.unpack('>Q', …)`
(and the analogous `>h`/`>l` before sign adjustment). -/
def beBytesToNat (l : Bytes) : Nat := l.foldl (fun a b => a * 256 + b) 0

/-- Python slice bound normalisation for `l[a:b]` with `len = l.length`. -/
def pyBound (len : Nat) (i : Int) : Nat :=
  if i < 0 then (max 0 ((len : Int) + i)).toNat else min len i.toNat

/-- Python slice `l[a:b]`. -/
def pySlice (l : Bytes) (a b : Int) : Bytes :=
  (l.take (pyBound l.length b)).drop (pyBound l.length a)

/-- Python slice `l[a:]`. -/
def pySliceFrom (l : Bytes) (a : Int) : Bytes := l.drop (pyBound l.length a)

/-- Fixed-width slice `l[a:a+n]` used for regex groups of known width. -/
def sliceN (l : Bytes) (a n : Nat) : Bytes := (l.drop a).take n

/-- Fuelled computation of Python `int.bit_length` (for non-negative ints);
the fuel argument only bounds the recursion depth and is always sufficient
when instantiated with the number itself. -/
def bitLenFuel : Nat → Nat → Nat
  | 0, _ => 0
  | f + 1, n => if n = 0 then 0 else bitLenFuel f (n / 2) + 1

/-- Python `n.bit_length()` for a natural number. -/
def bit_length (n : Nat) : Nat := bitLenFuel n n

theorem bitLenFuel_le_iff (f : Nat) : ∀ n k : Nat, n ≤ f →
    (bitLenFuel f n ≤ k ↔ n < 2 ^ k) := by
  induction f with
  | zero =>
    intro n k hn
    have h0 : n = 0 := Nat.le_zero.mp hn
    subst h0
    have hz : bitLenFuel 0 0 = 0 := rfl
    rw [hz]
    constructor
    · intro _
      exact pow_pos (by norm_num) k
    · intro _
      exact Nat.zero_le k
  | succ f ih =>
    intro n k hn
    by_cases h0 : n = 0
    · subst h0
      have hz : bitLenFuel (f + 1) 0 = 0 := by simp [bitLenFuel]
      rw [hz]
      constructor
      · intro _
        exact pow_pos (by norm_num) k
      · intro _
        exact Nat.zero_le k
    · have hpos : 0 < n := Nat.pos_of_ne_zero h0
      have hhalf : n / 2 ≤ f := by
        have : n / 2 < n := Nat.div_lt_self hpos one_lt_two
        omega
      have hrw : bitLenFuel (f + 1) n = bitLenFuel f (n / 2) + 1 := by
        simp [bitLenFuel, h0]
      cases k with
      | zero =>
        rw [hrw, pow_zero]
        omega
      | succ k =>
        rw [hrw, pow_succ]
        constructor
        · intro hle
          have h1 : bitLenFuel f (n / 2) ≤ k := by omega
          exact (Nat.div_lt_iff_lt_mul (by norm_num)).mp ((ih _ k hhalf).mp h1)
        · intro hlt
          have := (ih _ k hhalf).mpr ((Nat.div_lt_iff_lt_mul (by norm_num)).mpr hlt)
          omega

theorem bit_length_le_iff (n k : Nat) : bit_length n ≤ k ↔ n < 2 ^ k :=
  bitLenFuel_le_iff n n k le_rfl

/-- `bitmask` from `src/xport.py`: all ones over `bits` bits, or (with
`reverse`) the single bit just above them. -/
def bitmask (bits : Nat) (reverse : Bool) : Nat :=
  if bits < 1 then 0 else (1 <<< bits) - (if reverse then 0 else 1)

/-- Result of `ibm_to_double` (float output mode).  `zero` is the Python
float `0.0` returned for an all-NUL payload; `missingNumeric` is the Python
`None` returned for `b'.\0…\0'`; `nan` is `math.nan`; `double` carries the
assembled IEEE 754 bit pattern together with whether the low four mantissa
bits were non-zero (the non-fatal precision-loss warning).  `overflow`
models the `FloatingPointError` branch and `structError` the `struct.pack`
failure that a negative packed value would cause; both are shown unreachable. -/
inductive IbmResult
  | zero
  | missingNumeric
  | nan
  | double (bits : Nat) (precLoss : Bool)
  | overflow
  | structError
deriving DecidableEq

/-- `integer, = struct.unpack('>Q', bytestring)` (line 520). -/
def ibmInteger (b : Bytes) : Nat := beBytesToNat b

/-- `sign = integer & bitmask(IBM.bits - 1, reverse=True)` (line 521). -/
def ibmSign (b : Bytes) : Nat := ibmInteger b &&& bitmask 63 true

/-- `remainder = integer & bitmask(IBM.bits - 1)` (line 522). -/
def ibmRem (b : Bytes) : Nat := ibmInteger b &&& bitmask 63 false

/-- `mantissa = remainder & bitmask(IBM.mantissa_bits)` (line 524). -/
def ibmMant (b : Bytes) : Nat := ibmRem b &&& bitmask 56 false

/-- `shift = IBM.mantissa_bits - mantissa.bit_length() + 1` (line 526). -/
def ibmShift (b : Bytes) : Nat := 56 - bit_length (ibmMant b) + 1

/-- `mantissa = (mantissa << shift) & bitmask(IBM.mantissa_bits)` (line 527). -/
def ibmMant2 (b : Bytes) : Nat := (ibmMant b <<< ibmShift b) &&& bitmask 56 false

/-- The biased IEEE exponent before the `<< 52` shift, exactly as computed on
lines 523 and 528–532 of the source:
`exponent = (remainder >> 56) - IBM.exponent_bias - 1` and then
`exponent*4 + (4 - shift) + IEEE.exponent_bias`. -/
def ibmExpSmall (b : Bytes) : Int :=
  (((ibmRem b >>> 56 : Nat) : Int) - 64 - 1) * 4 + (4 - (ibmShift b : Int)) + 1023

/-- `ibm_to_double` from `src/xport.py` (float output mode, i.e.
`pack_output=False`; the packed mode returns the same bit pattern in host
byte order).  Mirrors lines 513–542 of the source. -/
def ibm_to_double (b : Bytes) : IbmResult :=
  let check := rstripNul b
  if check.length ≤ 1 then
    if check = [] then .zero
    else if check = [0x2E] then .missingNumeric
    else .nan
  else
    -- `exponent … << IEEE.mantissa_bits` (line 532); an int shift of a
    -- possibly negative Python int is multiplication by 2^52.
    let exponent : Int := ibmExpSmall b * 2 ^ 52
    if bit_length exponent.natAbs > 63 then .overflow
    else if exponent < 0 then .structError  -- struct.pack('>Q', …) would raise
    else
      .double (ibmSign b ||| exponent.toNat ||| (ibmMant2 b >>> 4))
        (ibmMant2 b &&& bitmask 4 false != 0)

/-- Exact value of a finite IEEE 754 binary64 bit pattern as a dyadic
rational `num / 2 ^ den2` (`e = 2047` encodes infinities/NaNs, which the
decoder never produces on the inputs considered here; it is given the same
formula).  Working with the dyadic pair keeps every decoder computation in
`Int`/`Nat`, which the kernel can evaluate. -/
def ieeeBitsToDyadic (bits : Nat) : Int × Nat :=
  let s : Nat := bits / 2 ^ 63
  let e : Nat := bits / 2 ^ 52 % 2 ^ 11
  let m : Nat := bits % 2 ^ 52
  let sgn : Int := if s = 1 then -1 else 1
  if e = 0 then (sgn * (m : Int), 1074)
  else if e ≤ 1023 then (sgn * ((2 ^ 52 + m : Nat) : Int), 52 + (1023 - e))
  else (sgn * ((2 ^ 52 + m : Nat) : Int) * (2 : Int) ^ (e - 1023), 52)

/-- Exact rational value of a finite IEEE 754 binary64 bit pattern. -/
def ieeeBitsToRat (bits : Nat) : ℚ :=
  let d := ieeeBitsToDyadic bits
  (d.1 : ℚ) / 2 ^ d.2

/-- The spec's reference exponent formula (§4.2 step 4):
`ieee_exp = ibm_exp * 4 + (4 - s) + 1023` with `ibm_exp = (rem >> 56) - 64`.
Modelled from the spec, for comparison with `ibmExpSmall`. -/
def specExpSmall (b : Bytes) : Int :=
  (((ibmRem b >>> 56 : Nat) : Int) - 64) * 4 + (4 - (ibmShift b : Int)) + 1023

/-- The spec's reference assembly (§4.2 steps 5–6) built on `specExpSmall`.
Modelled from the spec, for comparison with `ibm_to_double`. -/
def specAssemble (b : Bytes) : Nat :=
  ibmSign b ||| (specExpSmall b * 2 ^ 52).toNat ||| (ibmMant2 b >>> 4)

/-! ## Errors raised by the Python code (exception kinds) -/

inductive Err
  | valueError (msg : String)   -- `ValueError`, incl. strptime/timedelta failures
  | keyError (name : String)    -- failed `globals()[name]` lookup
  | assertionError              -- failed `assert`
  | typeError                   -- e.g. arithmetic/strptime on `None`/bytes
  | indexError                  -- `[-1]` on an empty list, bad tuple index
  | unicodeDecodeError          -- strict `.decode()` failure outside decode_string
  | floatingPointError          -- the `FloatingPointError` in ibm_to_double
  | structPackError             -- struct.pack range failure (unreachable)
deriving DecidableEq

/-! ## SAS 16-byte datetimes (`decode_sas_datetime`, `datetime.strptime`) -/

/-- Python `datetime` value as produced by
`strptime(s, '%d%b%y:%H:%M:%S')` (microsecond always zero). -/
structure DT where
  year : Nat
  month : Nat
  day : Nat
  hour : Nat
  minute : Nat
  second : Nat
deriving DecidableEq

def digitVal (c : Char) : Nat := c.toNat - 48

/-- Parse one or two digits, greedily, as the `\d\d|\d`-style patterns of
`_strptime` do for `%d`, `%y`, `%H`, `%M`, `%S`. -/
def take2Digits : List Char → Option (Nat × List Char)
  | [] => none
  | [a] => if a.isDigit then some (digitVal a, []) else none
  | a :: b :: rest =>
    if a.isDigit then
      if b.isDigit then some (10 * digitVal a + digitVal b, rest)
      else some (digitVal a, b :: rest)
    else none

/-- `%b` month-abbreviation lookup (strptime matches case-insensitively). -/
def monthNum : List Char → Option Nat
  | ['J', 'A', 'N'] => some 1
  | ['F', 'E', 'B'] => some 2
  | ['M', 'A', 'R'] => some 3
  | ['A', 'P', 'R'] => some 4
  | ['M', 'A', 'Y'] => some 5
  | ['J', 'U', 'N'] => some 6
  | ['J', 'U', 'L'] => some 7
  | ['A', 'U', 'G'] => some 8
  | ['S', 'E', 'P'] => some 9
  | ['O', 'C', 'T'] => some 10
  | ['N', 'O', 'V'] => some 11
  | ['D', 'E', 'C'] => some 12
  | _ => none

def expectColon : List Char → Option (List Char)
  | c :: r => if c = ':' then some r else none
  | [] => none

def isLeapYear (y : Nat) : Bool := y % 4 == 0 && (y % 100 != 0 || y % 400 == 0)

def daysInMonth (y m : Nat) : Nat :=
  if m = 2 then (if isLeapYear y then 29 else 28)
  else if m = 4 ∨ m = 6 ∨ m = 9 ∨ m = 11 then 30
  else 31

/-- `decode_sas_datetime` from `src/xport.py`:
`datetime.strptime(datestring, '%d%b%y:%H:%M:%S')`.  `none` models the
`ValueError` strptime/datetime raise on a non-matching string or
out-of-range field.  The `%y` pivot is CPython's: 00–68 → 20xx,
69–99 → 19xx. -/
def decode_sas_datetime (s : String) : Option DT := do
  let (d, r1) ← take2Digits s.data
  let mo ← monthNum ((r1.take 3).map Char.toUpper)
  let (y2, r2) ← take2Digits (r1.drop 3)
  let r3 ← expectColon r2
  let (h, r4) ← take2Digits r3
  let r5 ← expectColon r4
  let (mi, r6) ← take2Digits r5
  let r7 ← expectColon r6
  let (sec, r8) ← take2Digits r7
  if r8 = [] then
    let y := if y2 ≤ 68 then 2000 + y2 else 1900 + y2
    if 1 ≤ d ∧ d ≤ daysInMonth y mo ∧ h ≤ 23 ∧ mi ≤ 59 ∧ sec ≤ 59 then
      some ⟨y, mo, d, h, mi, sec⟩
    else none
  else none

def pad2 (n : Nat) : String := if n < 10 then "0" ++ toString n else toString n

def pad4 (n : Nat) : String :=
  if n < 10 then "000" ++ toString n
  else if n < 100 then "00" ++ toString n
  else if n < 1000 then "0" ++ toString n
  else toString n

def pad6 (n : Nat) : String :=
  if n < 10 then "00000" ++ toString n
  else if n < 100 then "0000" ++ toString n
  else if n < 1000 then "000" ++ toString n
  else if n < 10000 then "00" ++ toString n
  else if n < 100000 then "0" ++ toString n
  else toString n

/-- Python `str(datetime)` for a microsecond-free datetime:
`YYYY-MM-DD HH:MM:SS`. -/
def dtToString (d : DT) : String :=
  pad4 d.year ++ "-" ++ pad2 d.month ++ "-" ++ pad2 d.day ++ " " ++
    pad2 d.hour ++ ":" ++ pad2 d.minute ++ ":" ++ pad2 d.second

/-- `'%s' % value` for the member `created`/`modified` fields. -/
def dtOptToString : Option DT → String
  | some d => dtToString d
  | none => "None"

/-! ## Exact model of `SAS_EPOCH + timedelta(...)` formatting

CPython's `timedelta` normalises a float argument to whole microseconds by
round-half-even; `datetime`/`date`/`time` arithmetic and `str` are then
exact integer computations.  IEEE doubles are dyadic rationals, so the
whole pipeline is modelled exactly over a dyadic value `n / 2 ^ k`. -/

/-- Round `n / 2 ^ k` to the nearest integer, ties to even
(Python `round`, used by `timedelta` float normalisation). -/
def roundHalfEvenDyadic (n : Int) (k : Nat) : Int :=
  let d : Int := 2 ^ k
  let q := n.fdiv d
  let r := n - q * d
  if 2 * r < d then q
  else if d < 2 * r then q + 1
  else if q % 2 = 0 then q else q + 1

/-- Proleptic-Gregorian civil date from a count of days since 1970-01-01
(Howard Hinnant's `civil_from_days`, the arithmetic `datetime.date` realises);
returns `(year, month, day)`. -/
def civilFromDays (z0 : Int) : Nat × Nat × Nat :=
  let z := z0 + 719468
  let era := z.fdiv 146097
  let doe := (z - era * 146097).toNat
  let yoe := (doe - doe / 1460 + doe / 36524 - doe / 146096) / 365
  let doy := doe - (365 * yoe + yoe / 4 - yoe / 100)
  let mp := (5 * doy + 2) / 153
  let d := doy - (153 * mp + 2) / 5 + 1
  let m := if mp < 10 then mp + 3 else mp - 9
  (((yoe : Int) + era * 400 + (if m ≤ 2 then 1 else 0)).toNat, m, d)

/-- Days between 1960-01-01 (SAS epoch) and 1970-01-01. -/
def sasEpochShift : Int := 3653

/-- `str((SAS_EPOCH + timedelta(seconds=q)).time())` for `q = n / 2 ^ k`. -/
def pyTimeOfDay (n : Int) (k : Nat) : String :=
  let us := roundHalfEvenDyadic (n * 1000000) k
  let tod := (us.emod 86400000000).toNat
  let micro := tod % 1000000
  let secs := tod / 1000000
  let base := pad2 (secs / 3600) ++ ":" ++ pad2 (secs / 60 % 60) ++ ":" ++
    pad2 (secs % 60)
  if micro = 0 then base else base ++ "." ++ pad6 micro

/-- `str((SAS_EPOCH + timedelta(days=q)).date())` for `q = n / 2 ^ k`. -/
def pyDateOfDays (n : Int) (k : Nat) : String :=
  let us := roundHalfEvenDyadic (n * 86400000000) k
  let day := us.fdiv 86400000000
  let c := civilFromDays (day - sasEpochShift)
  pad4 c.1 ++ "-" ++ pad2 c.2.1 ++ "-" ++ pad2 c.2.2

/-- `str(SAS_EPOCH + timedelta(seconds=q))` for `q = n / 2 ^ k`. -/
def pyDatetimeOfSeconds (n : Int) (k : Nat) : String :=
  let us := roundHalfEvenDyadic (n * 1000000) k
  let day := us.fdiv 86400000000
  let tod := (us.emod 86400000000).toNat
  let c := civilFromDays (day - sasEpochShift)
  let micro := tod % 1000000
  let secs := tod / 1000000
  let base := pad4 c.1 ++ "-" ++ pad2 c.2.1 ++ "-" ++ pad2 c.2.2 ++ " " ++
    pad2 (secs / 3600) ++ ":" ++ pad2 (secs / 60 % 60) ++ ":" ++ pad2 (secs % 60)
  if micro = 0 then base else base ++ "." ++ pad6 micro

/-! ## Format decoders `decode_date`, `decode_time`, `decode_datetime` -/

/-- The raw missing-numeric payload `b'.\0\0\0\0\0\0\0'`. -/
def missing8 : Bytes := [0x2E, 0, 0, 0, 0, 0, 0, 0]

/-- The all-zero 8-byte payload. -/
def zeros8 : Bytes := [0, 0, 0, 0, 0, 0, 0, 0]

/-- `decode_date` from `src/xport.py` (lines 378–390): `None` for the
missing sentinel, else `(SAS_EPOCH + timedelta(days=ibm_to_double(…))).date()`.
The error cases model the exceptions `timedelta` raises on `None`/NaN. -/
def decode_date (rawdatum : Bytes) : Except Err (Option String) :=
  if rawdatum = missing8 then .ok none
  else
    match ibm_to_double rawdatum with
    | .zero => .ok (some (pyDateOfDays 0 0))
    | .missingNumeric => .error .typeError
    | .nan => .error (.valueError "nan days")
    | .overflow => .error .floatingPointError
    | .structError => .error .structPackError
    | .double bits _ =>
      let d := ieeeBitsToDyadic bits
      .ok (some (pyDateOfDays d.1 d.2))

/-- `decode_time` from `src/xport.py` (lines 392–409).  NOTE the source
treats BOTH `b'.\0…'` and the all-zero payload as `None` (line 404). -/
def decode_time (rawdatum : Bytes) : Except Err (Option String) :=
  if rawdatum = missing8 ∨ rawdatum = zeros8 then .ok none
  else
    match ibm_to_double rawdatum with
    | .zero => .ok (some (pyTimeOfDay 0 0))
    | .missingNumeric => .error .typeError
    | .nan => .error (.valueError "nan seconds")
    | .overflow => .error .floatingPointError
    | .structError => .error .structPackError
    | .double bits _ =>
      let d := ieeeBitsToDyadic bits
      .ok (some (pyTimeOfDay d.1 d.2))

/-- `decode_datetime` from `src/xport.py` (lines 411–430). -/
def decode_datetime (rawdatum : Bytes) : Except Err (Option String) :=
  if rawdatum = missing8 then .ok none
  else
    match ibm_to_double rawdatum with
    | .zero => .ok (some (pyDatetimeOfSeconds 0 0))
    | .missingNumeric => .error .typeError
    | .nan => .error (.valueError "nan seconds")
    | .overflow => .error .floatingPointError
    | .structError => .error .structPackError
    | .double bits _ =>
      let d := ieeeBitsToDyadic bits
      .ok (some (pyDatetimeOfSeconds d.1 d.2))

/-! ## Character data: strict UTF-8, Latin-1 fallback, `decode_string` -/

/-- The process-global `DOCUMENT['encoding']` (initially `'utf8'`; flipped to
`'latin1'` by the fallback in `decode_string` and never reset). -/
inductive Enc
  | utf8
  | latin1
deriving DecidableEq

/-- Strict UTF-8 decoding (CPython's `bytes.decode('utf8')`): rejects stray
continuation bytes, overlong forms, surrogates and code points above
`0x10FFFF`.  The fuel argument only bounds recursion and is always
sufficient at `l.length`. -/
def utf8DecodeFuel : Nat → Bytes → Option (List Char)
  | _, [] => some []
  | 0, _ :: _ => none
  | f + 1, b :: rest =>
    if b < 0x80 then (utf8DecodeFuel f rest).map (Char.ofNat b :: ·)
    else if b < 0xC2 then none
    else if b < 0xE0 then
      match rest with
      | c1 :: r =>
        if 0x80 ≤ c1 && c1 < 0xC0 then
          (utf8DecodeFuel f r).map (Char.ofNat ((b - 0xC0) * 0x40 + (c1 - 0x80)) :: ·)
        else none
      | [] => none
    else if b < 0xF0 then
      match rest with
      | c1 :: c2 :: r =>
        if (0x80 ≤ c1 && c1 < 0xC0) && (0x80 ≤ c2 && c2 < 0xC0) then
          let cp := (b - 0xE0) * 0x1000 + (c1 - 0x80) * 0x40 + (c2 - 0x80)
          if cp < 0x800 then none
          else if 0xD800 ≤ cp && cp ≤ 0xDFFF then none
          else (utf8DecodeFuel f r).map (Char.ofNat cp :: ·)
        else none
      | _ => none
    else if b < 0xF5 then
      match rest with
      | c1 :: c2 :: c3 :: r =>
        if ((0x80 ≤ c1 && c1 < 0xC0) && (0x80 ≤ c2 && c2 < 0xC0)) &&
            (0x80 ≤ c3 && c3 < 0xC0) then
          let cp := (b - 0xF0) * 0x40000 + (c1 - 0x80) * 0x1000 +
            (c2 - 0x80) * 0x40 + (c3 - 0x80)
          if cp < 0x10000 then none
          else if 0x10FFFF < cp then none
          else (utf8DecodeFuel f r).map (Char.ofNat cp :: ·)
        else none
      | _ => none
    else none

def utf8Decode (l : Bytes) : Option (List Char) := utf8DecodeFuel l.length l

/-- A bare `.decode()` call (strict UTF-8; failures outside `decode_string`
propagate as `UnicodeDecodeError`). -/
def pyDecode (b : Bytes) : Except Err String :=
  match utf8Decode b with
  | some cs => .ok (String.mk cs)
  | none => .error .unicodeDecodeError

/-- `bytes.decode('latin1')`: each byte is its own code point; never fails. -/
def latin1Decode (l : Bytes) : List Char := l.map Char.ofNat

/-- `str.lower()` (ASCII range, which covers all `nform` values). -/
def pyLower (s : String) : String := String.mk (s.data.map Char.toLower)

/-- The literal `(*ESC*){unicode ` that starts an escape reference. -/
def escTag : List Char := "(*ESC*)\x7bunicode ".data

def isHexDigitC (c : Char) : Bool :=
  c.isDigit || ('a' ≤ c && c ≤ 'f') || ('A' ≤ c && c ≤ 'F')

def hexVal (c : Char) : Nat :=
  if c.isDigit then c.toNat - 48
  else if 'a' ≤ c then c.toNat - 87
  else c.toNat - 55

def hexToNat (l : List Char) : Nat := l.foldl (fun a c => a * 16 + hexVal c) 0

/-- The `re.sub` over `\(\*ESC\*\)\{unicode ([0-9a-fA-F]+)\}` replacing each
occurrence by `unichr(int(hex, 16))`; left-to-right, non-overlapping.
(`Char.ofNat` realises `unichr` on the Unicode scalar values that occur;
no claim input contains an escape at all.)  Fuel is always sufficient at
the list length. -/
def cleanFuel : Nat → List Char → List Char
  | 0, l => l
  | _ + 1, [] => []
  | f + 1, c :: rest =>
    if (c :: rest).take 16 = escTag then
      let after := (c :: rest).drop 16
      let hex := after.takeWhile isHexDigitC
      let rest2 := after.dropWhile isHexDigitC
      if !hex.isEmpty && rest2.head? == some (Char.ofNat 125) then
        Char.ofNat (hexToNat hex) :: cleanFuel f rest2.tail
      else c :: cleanFuel f rest
    else c :: cleanFuel f rest

def cleanEsc (l : List Char) : List Char := cleanFuel l.length l

/-- `decode_string` from `src/xport.py` (lines 432–455).  On a
`UnicodeDecodeError` the source sets `DOCUMENT['encoding'] = 'latin1'` and
retries the same bytes (Latin-1 cannot fail), which is inlined here; the
returned encoding is the updated global. -/
def decode_string (enc : Enc) (string : Bytes) : String × Enc :=
  let stripped := rstripNulSpace string
  match enc with
  | .utf8 =>
    match utf8Decode stripped with
    | some cs => (String.mk (cleanEsc cs), .utf8)
    | none => (String.mk (cleanEsc (latin1Decode stripped)), .latin1)
  | .latin1 => (String.mk (cleanEsc (latin1Decode stripped)), .latin1)

/-! ## Namestr decoding (`unpack_name`) and observation unpacking
(`unpack_record`) -/

/-- `struct.unpack('>h', …)`: signed big-endian 16-bit integer. -/
def i16be (b : Bytes) : Int :=
  let v := beBytesToNat b
  if v < 2 ^ 15 then (v : Int) else (v : Int) - 2 ^ 16

/-- `struct.unpack('>l', …)`: signed big-endian 32-bit integer. -/
def i32be (b : Bytes) : Int :=
  let v := beBytesToNat b
  if v < 2 ^ 31 then (v : Int) else (v : Int) - 2 ^ 32

/-- One parsed NAMESTR record (the regex group dictionary after
`unpack_name`): 2- and 4-byte fields other than `nfill` become signed ints, all
other fields are `rstrip(b'\0 ').decode()`d text. -/
structure Namestr where
  ntype : Int
  nhfun : Int
  nlng : Int
  nvar0 : Int
  nname : String
  nlabel : String
  nform : String
  nfl : Int
  nfd : Int
  nfj : Int
  nfill : String
  niform : String
  nifl : Int
  nifd : Int
  npos : Int
  longname : String
  lablen : Int
  rest : String
deriving DecidableEq

/-- `unpack_name` from `src/xport.py` applied to the 140-byte groups of the
`NAMESTR` regex (group offsets are the cumulative widths of the pattern on
lines 87–109). -/
def unpack_name (b : Bytes) : Except Err Namestr := do
  let txt := fun (off n : Nat) => pyDecode (rstripNulSpace (sliceN b off n))
  let nname ← txt 8 8
  let nlabel ← txt 16 40
  let nform ← txt 56 8
  let nfill ← txt 70 2
  let niform ← txt 72 8
  let longname ← txt 88 32
  let rest ← txt 122 18
  .ok {
    ntype := i16be (sliceN b 0 2)
    nhfun := i16be (sliceN b 2 2)
    nlng := i16be (sliceN b 4 2)
    nvar0 := i16be (sliceN b 6 2)
    nname, nlabel, nform
    nfl := i16be (sliceN b 64 2)
    nfd := i16be (sliceN b 66 2)
    nfj := i16be (sliceN b 68 2)
    nfill, niform
    nifl := i16be (sliceN b 80 2)
    nifd := i16be (sliceN b 82 2)
    npos := i32be (sliceN b 84 4)
    longname
    lablen := i16be (sliceN b 120 2)
    rest }

/-- A value handed to `csvout.writerow`: a decoded text field, Python
`None`, a finite float (by IEEE bit pattern) or `math.nan`. -/
inductive Cell
  | str (s : String)
  | null
  | num (bits : Nat)
  | nan
deriving DecidableEq

/-- Interpret an `ibm_to_double` result as a row value (`0.0` has bit
pattern 0); the unreachable error branches become exceptions. -/
def cellOfIbm : IbmResult → Except Err Cell
  | .zero => .ok (.num 0)
  | .missingNumeric => .ok .null
  | .nan => .ok .nan
  | .double bits _ => .ok (.num bits)
  | .overflow => .error .floatingPointError
  | .structError => .error .structPackError

def cellOfOpt : Option String → Cell
  | none => .null
  | some s => .str s

/-- The module-level functions named `decode_*` that
`globals()['decode_%s' % nform.lower()]` can resolve to. -/
inductive PyDecoder
  | num        -- ibm_to_double (empty nform)
  | date
  | time
  | datetime
  | strdec     -- decode_string
  | sasdt      -- decode_sas_datetime
deriving DecidableEq

def lookupDecoder (name : String) : Option PyDecoder :=
  if name = "decode_date" then some .date
  else if name = "decode_time" then some .time
  else if name = "decode_datetime" then some .datetime
  else if name = "decode_string" then some .strdec
  else if name = "decode_sas_datetime" then some .sasdt
  else none

/-- Apply the selected `decode_number` to a raw field.
`decode_sas_datetime` on bytes raises `TypeError` (strptime wants `str`). -/
def applyNumericDecoder (dec : PyDecoder) (enc : Enc) (raw : Bytes) :
    Except Err (Cell × Enc) :=
  match dec with
  | .num => (cellOfIbm (ibm_to_double raw)).map (fun c => (c, enc))
  | .date => (decode_date raw).map (fun o => (cellOfOpt o, enc))
  | .time => (decode_time raw).map (fun o => (cellOfOpt o, enc))
  | .datetime => (decode_datetime raw).map (fun o => (cellOfOpt o, enc))
  | .strdec =>
    let p := decode_string enc raw
    .ok (.str p.1, p.2)
  | .sasdt => .error .typeError

/-- `unpack_record` from `src/xport.py` (lines 361–376), with the global
encoding threaded through.  Note the `globals()` lookup happens before the
`(decode_number, decode_string)[ntype - 1]` tuple indexing, so an unknown
format raises `KeyError` even for character fields; indices other than
`0`, `1`, `-1`, `-2` raise `IndexError`. -/
def unpack_record (enc : Enc) (rawdata : Bytes) :
    List Namestr → Except Err (List Cell × Enc)
  | [] => .ok ([], enc)
  | field :: restFields => do
    let rawdatum := pySlice rawdata field.npos (field.npos + field.nlng)
    let dec ←
      if field.nform = "" then pure PyDecoder.num
      else
        match lookupDecoder ("decode_" ++ pyLower field.nform) with
        | some d => pure d
        | none => Except.error (Err.keyError ("decode_" ++ pyLower field.nform))
    let idx := field.ntype - 1
    let (c, enc') ←
      if idx = 0 ∨ idx = -2 then applyNumericDecoder dec enc rawdatum
      else if idx = 1 ∨ idx = -1 then
        let p := decode_string enc rawdatum
        Except.ok (Cell.str p.1, p.2)
      else Except.error Err.indexError
    let (cs, enc'') ← unpack_record enc' rawdata restFields
    .ok (c :: cs, enc'')

/-! ## Header regexes

Each `SAS_HEADER` pattern is
`^HEADER RECORD\*{7}<TAG>[A-Z0-9]+ +HEADER RECORD!{7}<data> *$` (with
`re.DOTALL`); since the character classes of adjacent variable-width pieces
are disjoint, greedy matching without backtracking is exact.  `$` matches at
the end or before a final newline. -/

def isTagChar (b : Nat) : Bool := (65 ≤ b && b ≤ 90) || (48 ≤ b && b ≤ 57)

def isDigitB (b : Nat) : Bool := 48 ≤ b && b ≤ 57

/-- Consume an exact literal. -/
def dropLit (lit : Bytes) (l : Bytes) : Option Bytes :=
  if l.take lit.length = lit then some (l.drop lit.length) else none

/-- `$` of `re.match`: end of input, or just before a final newline. -/
def dollarEnd (l : Bytes) : Bool := l == [] || l == [10]

/-- ` *$`. -/
def tailSpacesEnd (l : Bytes) : Bool := dollarEnd (l.dropWhile (· == 32))

def matchSasHeader (tag : Bytes) (tagNonEmpty : Bool) (payload : Bytes → Bool)
    (r : Bytes) : Bool :=
  match dropLit (ascii "HEADER RECORD*******" ++ tag) r with
  | none => false
  | some l1 =>
    if tagNonEmpty && (l1.takeWhile isTagChar).isEmpty then false
    else
      let l2 := l1.dropWhile isTagChar
      if (l2.takeWhile (· == 32)).isEmpty then false
      else
        match dropLit (ascii "HEADER RECORD!!!!!!!") (l2.dropWhile (· == 32)) with
        | none => false
        | some l3 => payload l3

/-- `0{30} *$` (LIBRARY and DESCRIPTOR payload). -/
def zeros30Payload (l : Bytes) : Bool :=
  match dropLit (List.replicate 30 48) l with
  | some l2 => tailSpacesEnd l2
  | none => false

/-- `0{16}01600000000140 *$` (MEMBER payload). -/
def memberPayload (l : Bytes) : Bool :=
  match dropLit (ascii "000000000000000001600000000140") l with
  | some l2 => tailSpacesEnd l2
  | none => false

/-- `0{6}([0-9]{6})0+ *$` (NAMESTR payload; the capture is only logged). -/
def namestrPayload (l : Bytes) : Bool :=
  match dropLit (List.replicate 6 48) l with
  | some l2 =>
    (l2.take 6).length == 6 && (l2.take 6).all isDigitB &&
      !((l2.drop 6).takeWhile (· == 48)).isEmpty &&
      tailSpacesEnd ((l2.drop 6).dropWhile (· == 48))
  | none => false

/-- `0+ *$` (OBSERVATION payload). -/
def obsPayload (l : Bytes) : Bool :=
  !(l.takeWhile (· == 48)).isEmpty && tailSpacesEnd (l.dropWhile (· == 48))

def matchLibraryHeader (r : Bytes) : Bool :=
  matchSasHeader (ascii "LIB") true zeros30Payload r

def matchMemberHeader (r : Bytes) : Bool :=
  matchSasHeader (ascii "MEM") true memberPayload r

def matchDescriptorHeader (r : Bytes) : Bool :=
  matchSasHeader (ascii "DSC") true zeros30Payload r

def matchNamestrHeader (r : Bytes) : Bool :=
  matchSasHeader (ascii "NAM") true namestrPayload r

/-- `OBS[A-Z0-9]*` — the tag run may be empty here. -/
def matchObsHeader (r : Bytes) : Bool :=
  matchSasHeader (ascii "OBS") false obsPayload r

/-- `REAL_HEADER` and `REAL_MEMBER_HEADER_6`:
`^(.{8})(.{8})(.{8})(.{8})(.{8}) {24}(.{16})$` under `re.DOTALL` — matches
exactly the 80-byte records whose bytes 40–63 are spaces. -/
def matchRealHeader (r : Bytes) : Bool :=
  r.length == 80 && (sliceN r 40 24).all (· == 32)

/-- `REAL_MEMBER_HEADER_8`: `^(.{8})(.{32})(.{8})(.{8})(.{8})(.{16})$` —
matches exactly the 80-byte records. -/
def matchRealMemberHeader8 (r : Bytes) : Bool := r.length == 80

/-- `REAL_MEMBER_HEADER2`: `^(.{16}) {16}(.{40})(.{8})$`. -/
def matchSecondHeader (r : Bytes) : Bool :=
  r.length == 80 && (sliceN r 16 16).all (· == 32)

/-! ## The ten-state structural parser (`xpt_to_csv`) -/

inductive MState
  | awaitingLibraryHeader
  | awaitingRealHeader
  | awaitingMtimeHeader
  | awaitingMemberHeader
  | awaitingMemberDescriptor
  | awaitingMemberData
  | awaitingSecondHeader
  | awaitingNamestrHeader
  | awaitingNamestrRecords
  | awaitingObservationRecords
deriving DecidableEq

/-- One member dict.  Keys that the Python code adds later start out as
`none`/empty here (`data` is created but never used and is omitted). -/
structure Member where
  dataset_name : String
  namestrings : Bytes
  names : List Namestr
  observations : Bytes
  sas_version : String
  os : String
  created : Option DT
  modified : Option DT
  dataset_label : String
  dataset_type : String
  recordlength : Int
deriving DecidableEq

structure Doc where
  sas_version : String
  real_version : Nat
  os : String
  created : Option DT
  modified : Option DT
  members : List Member
deriving DecidableEq

/-- Parser state: the document under construction, the rows written to the
CSV sink so far, the process-global encoding, and the state register. -/
structure PState where
  doc : Doc
  rows : List (List Cell)
  enc : Enc
  st : MState
deriving DecidableEq

/-- `document['members'][-1]`; `IndexError` on an empty list. -/
def lastMember (d : Doc) : Except Err Member :=
  match d.members.getLast? with
  | some m => .ok m
  | none => .error .indexError

/-- Write back a mutation of `document['members'][-1]`. -/
def setLastMember (d : Doc) (m : Member) : Doc :=
  { d with members := d.members.dropLast ++ [m] }

def get_library_header (ps : PState) (record : Bytes) : Except Err PState :=
  if matchLibraryHeader record then .ok { ps with st := .awaitingRealHeader }
  else .error (.valueError "Invalid library header")

def get_real_header (ps : PState) (record : Bytes) : Except Err PState := do
  if !matchRealHeader record then .error (.valueError "Not finding valid header")
  else
    let s1 ← pyDecode (rstripWs (sliceN record 0 8))
    if s1 ≠ "SAS" then .error .assertionError
    else
      let s2 ← pyDecode (rstripWs (sliceN record 8 8))
      if s2 ≠ "SAS" then .error .assertionError
      else do
        let sas_version ← pyDecode (rstripWs (sliceN record 24 8))
        let os ← pyDecode (rstripNulSpace (sliceN record 32 8))
        let createdS ← pyDecode (sliceN record 64 16)
        match decode_sas_datetime createdS with
        | none => .error (.valueError "strptime")
        | some created =>
          if sas_version = "" ∨ os = "" then .error .assertionError
          else
            let doc2 := { ps.doc with
              sas_version := sas_version
              real_version := 8
              os := os
              created := some created }
            .ok { ps with doc := doc2, st := .awaitingMtimeHeader }

def get_mtime_header (ps : PState) (record : Bytes) : Except Err PState := do
  let s ← pyDecode (rstripWs record)
  match decode_sas_datetime s with
  | none => .error (.valueError "strptime")
  | some dt =>
    let doc2 := { ps.doc with modified := some dt }
    .ok { ps with doc := doc2, st := .awaitingMemberHeader }

def get_member_header (ps : PState) (record : Bytes) : Except Err PState :=
  if matchMemberHeader record then .ok { ps with st := .awaitingMemberDescriptor }
  else .error (.valueError "not valid member header")

def get_descriptor (ps : PState) (record : Bytes) : Except Err PState :=
  if matchDescriptorHeader record then .ok { ps with st := .awaitingMemberData }
  else .error (.valueError "not valid descriptor header")

/-- The body of one `get_member_data` attempt: select the pattern for
`real_version`, match, check the `'SAS'` assertion, and build the member
dict that is appended (fields in source order). -/
def parse_real_member (version : Nat) (record : Bytes) : Except Err Member := do
  let ok ←
    match version with
    | 6 => pure (matchRealHeader record)
    | 8 => pure (matchRealMemberHeader8 record)
    | _ => Except.error (Err.keyError "REAL_MEMBER_HEADER")
  if !ok then .error (.valueError "not valid real member header")
  else
    let s1 ← pyDecode (rstripWs (sliceN record 0 8))
    if s1 ≠ "SAS" then .error .assertionError
    else do
      let dataset_name ← pyDecode (rstripWs
        (if version = 6 then sliceN record 8 8 else sliceN record 8 32))
      let sas_version ← pyDecode (rstripWs
        (if version = 6 then sliceN record 24 8 else sliceN record 48 8))
      let os ← pyDecode (rstripNulSpace
        (if version = 6 then sliceN record 32 8 else sliceN record 56 8))
      let createdS ← pyDecode (sliceN record 64 16)
      match decode_sas_datetime createdS with
      | none => .error (.valueError "strptime")
      | some created =>
        .ok { dataset_name := dataset_name, namestrings := [], names := [],
              observations := [], sas_version := sas_version, os := os,
              created := some created, modified := none, dataset_label := "",
              dataset_type := "", recordlength := 0 }

/-- `get_member_data` with its bounded retry (`attempt` ≤ 2); the fuel only
bounds the recursion and 3 is always sufficient.  NOTE: the member is
appended BEFORE the empty-`sas_version`/`os` check, so the retry path
appends a second member for the same header record. -/
def get_member_data_aux : Nat → Doc → Bytes → Nat → Except Err (Doc × MState)
  | 0, _, _, _ => .error (.valueError "fuel exhausted")
  | f + 1, doc, record, attempt =>
    if attempt > 2 then .error (.valueError "not valid in old or new schema")
    else do
      let m ← parse_real_member doc.real_version record
      let doc1 := { doc with members := doc.members ++ [m] }
      if m.sas_version = "" ∨ m.os = "" then
        get_member_data_aux f
          { doc1 with real_version := if doc1.real_version = 6 then 8 else 6 }
          record (attempt + 1)
      else .ok (doc1, .awaitingSecondHeader)

def get_member_data (ps : PState) (record : Bytes) : Except Err PState := do
  let r ← get_member_data_aux 3 ps.doc record 1
  .ok { ps with doc := r.1, st := r.2 }

def get_second_header (ps : PState) (record : Bytes) : Except Err PState := do
  if !matchSecondHeader record then .error (.valueError "not valid second header")
  else
    let member ← lastMember ps.doc
    let modS ← pyDecode (sliceN record 0 16)
    match decode_sas_datetime modS with
    | none => .error (.valueError "strptime")
    | some modified => do
      let dataset_label ← pyDecode (rstripWs (sliceN record 32 40))
      let dataset_type ← pyDecode (rstripWs (sliceN record 72 8))
      let m2 := { member with
        modified := some modified
        dataset_label := dataset_label
        dataset_type := dataset_type }
      let row : List Cell :=
        [.str (m2.dataset_name ++ " (" ++ dataset_label ++ ")"),
         .str ("created " ++ dtOptToString m2.created),
         .str ("modified " ++ dtToString modified)]
      .ok { ps with
        doc := setLastMember ps.doc m2
        rows := ps.rows ++ [row]
        st := .awaitingNamestrHeader }

def get_namestr_header (ps : PState) (record : Bytes) : Except Err PState :=
  if matchNamestrHeader record then .ok { ps with st := .awaitingNamestrRecords }
  else .error (.valueError "not valid namestr header")

/-- The `for index in range(0, len(namestrings), 140)` loop: full 140-byte
chunks are parsed, a short final chunk is discarded.  Fuel is always
sufficient at `buf.length + 1`. -/
def parseNamestrChunks : Nat → Bytes → Except Err (List Namestr)
  | 0, _ => .ok []
  | f + 1, buf =>
    if buf.isEmpty then .ok []
    else
      let chunk := buf.take 140
      if chunk.length < 140 then .ok []
      else do
        let n ← unpack_name chunk
        let ns ← parseNamestrChunks f (buf.drop 140)
        .ok (n :: ns)

def get_namestr_records (ps : PState) (record : Bytes) : Except Err PState := do
  if !matchObsHeader record then do
    let member ← lastMember ps.doc
    .ok { ps with
      doc := setLastMember ps.doc
        { member with namestrings := member.namestrings ++ record },
      st := .awaitingNamestrRecords }
  else do
    let member ← lastMember ps.doc
    let names ← parseNamestrChunks (member.namestrings.length + 1)
      member.namestrings
    match names.getLast? with
    | none => .error .indexError  -- member['names'][-1] of an empty list
    | some last =>
      let m2 := { member with
        names := names
        recordlength := last.npos + last.nlng }
      let newRows := [names.map (fun n => Cell.str n.nname),
        names.map (fun n => Cell.str n.nlabel)]
      .ok { ps with
        doc := setLastMember ps.doc m2
        rows := ps.rows ++ newRows
        st := .awaitingObservationRecords }

/-- `get_observation_records` (lines 307–323).  NOTE the strict `>`
comparison and the single slice per incoming record: at most one data row is
emitted per 80-byte record, and a residue of up to `recordlength` bytes is
never flushed. -/
def get_observation_records (ps : PState) (record : Bytes) :
    Except Err PState := do
  if matchMemberHeader record then get_member_header ps record
  else
    let member ← lastMember ps.doc
    let obs1 := member.observations ++ record
    if (obs1.length : Int) > member.recordlength then do
      let rec1 := pySlice obs1 0 member.recordlength
      let p ← unpack_record ps.enc rec1 member.names
      .ok { ps with
        doc := setLastMember ps.doc
          { member with observations := pySliceFrom obs1 member.recordlength },
        rows := ps.rows ++ [p.1], enc := p.2,
        st := .awaitingObservationRecords }
    else
      .ok { ps with
        doc := setLastMember ps.doc { member with observations := obs1 },
        st := .awaitingObservationRecords }

/-- The `dispatch` table of `xpt_to_csv`. -/
def dispatch (ps : PState) (record : Bytes) : Except Err PState :=
  match ps.st with
  | .awaitingLibraryHeader => get_library_header ps record
  | .awaitingRealHeader => get_real_header ps record
  | .awaitingMtimeHeader => get_mtime_header ps record
  | .awaitingMemberHeader => get_member_header ps record
  | .awaitingMemberDescriptor => get_descriptor ps record
  | .awaitingMemberData => get_member_data ps record
  | .awaitingSecondHeader => get_second_header ps record
  | .awaitingNamestrHeader => get_namestr_header ps record
  | .awaitingNamestrRecords => get_namestr_records ps record
  | .awaitingObservationRecords => get_observation_records ps record

/-- The read loop of `xpt_to_csv` (lines 338–346): `record = infile.read(80)`
returns the next at-most-80 bytes; ONLY an empty read (`if not record`) ends
the loop — a 1–79-byte tail is dispatched like any record.  Fuel is always
sufficient at `input.length + 1`. -/
def runFuel : Nat → PState → Bytes → Except Err PState
  | 0, ps, _ => .ok ps
  | f + 1, ps, input =>
    if input.isEmpty then .ok ps
    else
      match dispatch ps (input.take 80) with
      | .error e => .error e
      | .ok ps2 => runFuel f ps2 (input.drop 80)

def runRecords (ps : PState) (input : Bytes) : Except Err PState :=
  runFuel (input.length + 1) ps input

/-- Initial state: `document = {'members': []}`,
`state = 'awaiting_library_header'`, with the process-global
`DOCUMENT['encoding']` as a parameter (module load sets it to `'utf8'`;
a previous run may have left `'latin1'`). -/
def initDoc : Doc :=
  { sas_version := "", real_version := 8, os := "", created := none,
    modified := none, members := [] }

def initPS (enc : Enc) : PState :=
  { doc := initDoc, rows := [], enc := enc, st := .awaitingLibraryHeader }

/-- `xpt_to_csv` over a byte string, returning the final parser state
(whose `rows` are everything written to the CSV sink). -/
def xpt_to_csv (enc : Enc) (input : Bytes) : Except Err PState :=
  runRecords (initPS enc) input

/-! ## Concrete transport files used by the end-to-end claims -/

def zeros (n : Nat) : Bytes := List.replicate n 48
def spaces (n : Nat) : Bytes := List.replicate n 32
def nuls (n : Nat) : Bytes := List.replicate n 0

/-- A fixed-width, space-padded text field. -/
def field (w : Nat) (s : String) : Bytes := ascii s ++ spaces (w - (ascii s).length)

def i16bytes (n : Nat) : Bytes := [n / 256 % 256, n % 256]

def i32bytes (n : Nat) : Bytes :=
  [n / 2 ^ 24 % 256, n / 2 ^ 16 % 256, n / 256 % 256, n % 256]

def recLib : Bytes :=
  ascii "HEADER RECORD*******LIBRARY HEADER RECORD!!!!!!!" ++ zeros 30 ++ spaces 2

def recReal : Bytes :=
  field 8 "SAS" ++ field 8 "SAS" ++ field 8 "SASLIB" ++ field 8 "9.4" ++
    field 8 "Linux" ++ spaces 24 ++ ascii "01JAN20:00:00:00"

def recMtime : Bytes := ascii "01JAN20:00:00:00" ++ spaces 64

def recMember : Bytes :=
  ascii "HEADER RECORD*******MEMBER  HEADER RECORD!!!!!!!" ++ zeros 16 ++
    ascii "01600000000140" ++ spaces 2

def recDscptr : Bytes :=
  ascii "HEADER RECORD*******DSCPTV8 HEADER RECORD!!!!!!!" ++ zeros 30 ++ spaces 2

/-- Version-8 real member header for dataset `MINI`. -/
def recMemberData : Bytes :=
  field 8 "SAS" ++ field 32 "MINI" ++ field 8 "SASDATA" ++ field 8 "9.4" ++
    field 8 "Linux" ++ ascii "01JAN20:00:00:00"

def recSecond : Bytes :=
  ascii "01JAN20:00:00:00" ++ spaces 16 ++ field 40 "TEST" ++ field 8 "DATA"

def recNamestrHdr : Bytes :=
  ascii "HEADER RECORD*******NAMESTR HEADER RECORD!!!!!!!" ++ zeros 6 ++
    ascii "000001" ++ zeros 16 ++ spaces 4

/-- One 140-byte namestr: numeric column `X`, width 8, position 0. -/
def ns140X : Bytes :=
  i16bytes 1 ++ i16bytes 0 ++ i16bytes 8 ++ i16bytes 1 ++ field 8 "X" ++
    field 40 "Variable X" ++ field 8 "" ++ i16bytes 0 ++ i16bytes 0 ++
    i16bytes 0 ++ nuls 2 ++ field 8 "" ++ i16bytes 0 ++ i16bytes 0 ++
    i32bytes 0 ++ field 32 "X" ++ i16bytes 10 ++ nuls 18

def recObsHdr : Bytes :=
  ascii "HEADER RECORD*******OBS     HEADER RECORD!!!!!!!" ++ zeros 30 ++ spaces 2

/-- Observation record with two 8-byte numeric observations (1.0 and 2.0),
NUL-padded to 80 bytes. -/
def recObsData : Bytes :=
  [0x41, 0x10, 0, 0, 0, 0, 0, 0, 0x41, 0x20, 0, 0, 0, 0, 0, 0] ++ nuls 64

/-- The minimal valid single-member file of spec §8 scenario 1: one numeric
column, two observations (12 records, 960 bytes). -/
def minimalFile : Bytes :=
  recLib ++ recReal ++ recMtime ++ recMember ++ recDscptr ++ recMemberData ++
    recSecond ++ recNamestrHdr ++ (ns140X ++ nuls 20) ++ recObsHdr ++ recObsData

def resultRows (r : Except Err PState) : Option (List (List Cell)) :=
  match r with
  | .ok ps => some ps.rows
  | .error _ => none

def resultEnc (r : Except Err PState) : Option Enc :=
  match r with
  | .ok ps => some ps.enc
  | .error _ => none

/-- Member header record for C9's retry scenario: under the version-8
layout `sas_version` (bytes 48–55) is blank, under version 6 (bytes 24–31)
it is `9.4` — so the first parse triggers the retry and the retry succeeds. -/
def recRetry : Bytes :=
  field 8 "SAS" ++ field 8 "RETRY" ++ field 8 "X" ++ field 8 "9.4" ++
    field 8 "LINUX" ++ spaces 24 ++ ascii "01JAN20:00:00:00"

/-- Version-8 real member header for dataset `CHARS`. -/
def recMemberDataC : Bytes :=
  field 8 "SAS" ++ field 32 "CHARS" ++ field 8 "SASDATA" ++ field 8 "9.4" ++
    field 8 "Linux" ++ ascii "01JAN20:00:00:00"

def recNamestrHdrC : Bytes :=
  ascii "HEADER RECORD*******NAMESTR HEADER RECORD!!!!!!!" ++ zeros 6 ++
    ascii "000002" ++ zeros 16 ++ spaces 4

/-- Character column `A`, width 2, position 0. -/
def nsA : Bytes :=
  i16bytes 2 ++ i16bytes 0 ++ i16bytes 2 ++ i16bytes 1 ++ field 8 "A" ++
    field 40 "Alpha" ++ field 8 "" ++ i16bytes 0 ++ i16bytes 0 ++
    i16bytes 0 ++ nuls 2 ++ field 8 "" ++ i16bytes 0 ++ i16bytes 0 ++
    i32bytes 0 ++ field 32 "A" ++ i16bytes 5 ++ nuls 18

/-- Character column `B`, width 1, position 2. -/
def nsB : Bytes :=
  i16bytes 2 ++ i16bytes 0 ++ i16bytes 1 ++ i16bytes 2 ++ field 8 "B" ++
    field 40 "Beta" ++ field 8 "" ++ i16bytes 0 ++ i16bytes 0 ++
    i16bytes 0 ++ nuls 2 ++ field 8 "" ++ i16bytes 0 ++ i16bytes 0 ++
    i32bytes 2 ++ field 32 "B" ++ i16bytes 4 ++ nuls 18

/-- Observation record for the encoding scenario: column `A` holds the
valid UTF-8 bytes `C3 A9` (`é`), column `B` holds `FF`, which is invalid
UTF-8 and triggers the Latin-1 fallback. -/
def recObsDataC : Bytes := [0xC3, 0xA9, 0xFF] ++ nuls 77

/-- A valid file with one member of two character columns whose decoding
flips the global encoding mid-row (14 records, 1120 bytes). -/
def charFile : Bytes :=
  recLib ++ recReal ++ recMtime ++ recMember ++ recDscptr ++ recMemberDataC ++
    recSecond ++ recNamestrHdrC ++ (nsA ++ nsB ++ nuls 40) ++ recObsHdr ++
    recObsDataC

/-- A member dict sitting in the observation-accumulation state with a large
`recordlength`, used to exhibit short-read buffer appends. -/
def memberStub : Member :=
  { dataset_name := "M", namestrings := [], names := [], observations := [],
    sas_version := "9.4", os := "L", created := none, modified := none,
    dataset_label := "", dataset_type := "", recordlength := 1000 }

def psObs : PState :=
  { doc := { initDoc with members := [memberStub] }, rows := [], enc := .utf8,
    st := .awaitingObservationRecords }

/-- A 79-byte partial tail (not a member header). -/
def tail79 : Bytes := List.replicate 79 65

/-! ## Helper lemmas -/

theorem except_bind_error {ε α β : Type} (e : ε) (f : α → Except ε β) :
    (Except.error e : Except ε α) >>= f = .error e := rfl

theorem except_bind_ok {ε α β : Type} (a : α) (f : α → Except ε β) :
    (Except.ok a : Except ε α) >>= f = f a := rfl

theorem runFuel_nil (f : Nat) (ps : PState) : runFuel f ps [] = .ok ps := by
  cases f <;> simp [runFuel]

theorem bitmask63 : bitmask 63 false = 2 ^ 63 - 1 := by
  norm_num [bitmask, Nat.shiftLeft_eq]

theorem bitmask56 : bitmask 56 false = 2 ^ 56 - 1 := by
  norm_num [bitmask, Nat.shiftLeft_eq]

/-- On every input (not just the ones reaching the numeric path), the
pre-shift biased exponent of `ibm_to_double` lies in `[710, 1274]`: the
masked remainder is below `2 ^ 63`, so the 7-bit IBM exponent field is at
most 127, and the normalisation shift lies in `[1, 57]`. -/
theorem ibmExpSmall_bounds (b : Bytes) :
    710 ≤ ibmExpSmall b ∧ ibmExpSmall b ≤ 1274 := by
  have hrem : ibmRem b ≤ 2 ^ 63 - 1 := by
    rw [ibmRem, ← bitmask63]
    exact Nat.and_le_right
  have h56 : ibmRem b >>> 56 ≤ 127 := by
    rw [Nat.shiftRight_eq_div_pow]
    have h2 : ibmRem b / 2 ^ 56 ≤ (2 ^ 63 - 1) / 2 ^ 56 :=
      Nat.div_le_div_right hrem
    omega
  have hmant : ibmMant b ≤ 2 ^ 56 - 1 := by
    rw [ibmMant, ← bitmask56]
    exact Nat.and_le_right
  have hbl : bit_length (ibmMant b) ≤ 56 :=
    (bit_length_le_iff _ _).mpr (by omega)
  have hshift1 : 1 ≤ ibmShift b := by
    rw [ibmShift]; omega
  have hshift2 : ibmShift b ≤ 57 := by
    rw [ibmShift]; omega
  rw [ibmExpSmall]
  omega

/-- Neither error branch of `ibm_to_double` can fire: the shifted exponent
is non-negative and below `2 ^ 63`, so its bit length is at most 63. -/
theorem ibm_to_double_no_error (b : Bytes) :
    ibm_to_double b ≠ .overflow ∧ ibm_to_double b ≠ .structError := by
  obtain ⟨hlo, hhi⟩ := ibmExpSmall_bounds b
  have hnn : (0 : Int) ≤ ibmExpSmall b * 2 ^ 52 :=
    mul_nonneg (by omega) (by positivity)
  have hub : ibmExpSmall b * 2 ^ 52 ≤ 1274 * 2 ^ 52 :=
    mul_le_mul_of_nonneg_right hhi (by positivity)
  have habs : (ibmExpSmall b * 2 ^ 52).natAbs < 2 ^ 63 := by
    have h1 : ibmExpSmall b * 2 ^ 52 < 2 ^ 63 := lt_of_le_of_lt hub (by norm_num)
    omega
  have hbl2 : bit_length ((ibmExpSmall b * 2 ^ 52).natAbs) ≤ 63 :=
    (bit_length_le_iff _ _).mpr habs
  unfold ibm_to_double
  dsimp only
  split_ifs with h1 h2 h3 h4 h5
  · exact ⟨IbmResult.noConfusion, IbmResult.noConfusion⟩
  · exact ⟨IbmResult.noConfusion, IbmResult.noConfusion⟩
  · exact ⟨IbmResult.noConfusion, IbmResult.noConfusion⟩
  · omega
  · omega
  · exact ⟨IbmResult.noConfusion, IbmResult.noConfusion⟩

def resultLastMember (r : Except Err PState) : Option Member :=
  match r with
  | .ok ps => ps.doc.members.getLast?
  | .error _ => none

/-- A numeric observation field (`ntype 1`, width 8, position 0) with the
given output format name. -/
def mkNumField (nform : String) : Namestr :=
  { ntype := 1, nhfun := 0, nlng := 8, nvar0 := 1, nname := "X", nlabel := "",
    nform := nform, nfl := 0, nfd := 0, nfj := 0, nfill := "", niform := "",
    nifl := 0, nifd := 0, npos := 0, longname := "", lablen := 0, rest := "" }

/-- The member dict `parse_real_member 8` builds from `recMemberData`. -/
def miniMember : Member :=
  { dataset_name := "MINI", namestrings := [], names := [], observations := [],
    sas_version := "9.4", os := "Linux", created := some ⟨2020, 1, 1, 0, 0, 0⟩,
    modified := none, dataset_label := "", dataset_type := "", recordlength := 0 }

theorem except_map_ok {ε α β : Type} (g : α → β) (a : α) :
    Except.map g (Except.ok a : Except ε α) = .ok (g a) := rfl

theorem except_map_error {ε α β : Type} (g : α → β) (e : ε) :
    Except.map g (Except.error e : Except ε α) = .error e := rfl

/-! ## Claim theorems -/

/-- C1: the claim asserts the decoder emits `observation bytes / recordlength`
data rows, and in particular the minimal single-member file (one numeric
8-byte column, two observations 1.0 and 2.0) emits three header rows and TWO
data rows.  The code does not: `get_observation_records` only compares with
a strict `>` and slices at most one row per incoming 80-byte record, and
nothing flushes the buffer at end of input, so running the decoder on the
960-byte `minimalFile` emits the three header rows but exactly ONE data row
(the value 1.0, bit pattern `0x3FF0000000000000`), leaving 72 unconsumed
buffer bytes (including the whole second observation) against a
recordlength of 8. -/
theorem c1_minimal_file_emits_one_data_row :
    resultRows (xpt_to_csv .utf8 minimalFile) =
      some [[.str "MINI (TEST)", .str "created 2020-01-01 00:00:00",
             .str "modified 2020-01-01 00:00:00"],
            [.str "X"], [.str "Variable X"], [.num 0x3FF0000000000000]] ∧
    (resultLastMember (xpt_to_csv .utf8 minimalFile)).map
      (fun m => (m.recordlength, (m.observations.length : Int))) =
      some (8, 72) := by
  decide

/-- C2 (amended): only an EMPTY read terminates the parse loop; a short
final read of 1–79 bytes is passed to the current state handler exactly like
a full record (and may be appended to a buffer or raise a parse error). -/
theorem c2_short_read_is_dispatched (ps : PState) (bs : Bytes) (h1 : bs ≠ [])
    (h2 : bs.length < 80) : runRecords ps bs = dispatch ps bs := by
  have hne : ¬ bs.isEmpty := by simpa [List.isEmpty_iff]
  have htake : bs.take 80 = bs := List.take_of_length_le (by omega)
  have hdrop : bs.drop 80 = [] := List.drop_eq_nil_of_le (by omega)
  have hlen : ∃ k, bs.length = k + 1 := by
    cases bs with
    | nil => exact absurd rfl h1
    | cons a l => exact ⟨l.length, rfl⟩
  obtain ⟨k, hk⟩ := hlen
  unfold runRecords
  rw [hk]
  show runFuel (k + 1 + 1) ps bs = dispatch ps bs
  unfold runFuel
  rw [if_neg hne, htake, hdrop]
  cases hdp : dispatch ps bs with
  | error e => rfl
  | ok ps2 => exact runFuel_nil _ _

/-- C2 witness: a concrete 2-byte tail is dispatched to the state handler. -/
theorem c2_short_read_is_dispatched_witness :
    runRecords (initPS .utf8) (ascii "HI") = dispatch (initPS .utf8) (ascii "HI") :=
  c2_short_read_is_dispatched (initPS .utf8) (ascii "HI") (by decide) (by decide)

/-- C2 counterexample: a file ending mid-record does NOT terminate cleanly at
the last complete record boundary — a valid library header followed by a
5-byte tail aborts with a parse error because the tail reaches
`get_real_header`; and in the observation state a 79-byte tail IS appended
to the observations buffer. -/
theorem c2_short_tail_counterexample :
    xpt_to_csv .utf8 (recLib ++ ascii "HELLO") =
      .error (.valueError "Not finding valid header") ∧
    (dispatch psObs tail79).toOption.map
      (fun ps => ps.doc.members.map Member.observations) = some [tail79] := by
  decide

/-- C3 counterexample: on the `+1.0` test vector `41 10 00 00 00 00 00 00`
the spec's reference formula yields a biased exponent of 1027 and assembles
the bit pattern of 16.0 (`0x4030000000000000`), while the implementation
yields 1023 and the bit pattern of 1.0 — so the two algorithms are not
extensionally equal, and the reference formula does NOT pass the listed test
vectors. -/
theorem c3_spec_formula_counterexample :
    ibmExpSmall [0x41, 0x10, 0, 0, 0, 0, 0, 0] = 1023 ∧
    specExpSmall [0x41, 0x10, 0, 0, 0, 0, 0, 0] = 1027 ∧
    specAssemble [0x41, 0x10, 0, 0, 0, 0, 0, 0] = 0x4030000000000000 ∧
    ibm_to_double [0x41, 0x10, 0, 0, 0, 0, 0, 0] =
      .double 0x3FF0000000000000 false ∧
    specAssemble [0x41, 0x10, 0, 0, 0, 0, 0, 0] ≠ 0x3FF0000000000000 ∧
    ieeeBitsToRat 0x4030000000000000 = 16 :=
  ⟨by decide, by decide, by decide, by decide, by decide,
   by norm_num [ieeeBitsToRat, ieeeBitsToDyadic]⟩

/-- C3 (amended): the implemented conversion uses
`ibm_exp = (rem >> 56) - 64 - 1`, not the spec's `(rem >> 56) - 64`; on
EVERY 8-byte input the implementation's pre-shift biased exponent is exactly
the spec's reference value minus 4 (one hexadecimal digit). -/
theorem c3_exponent_differs_by_four :
    ∀ b : Bytes, ibmExpSmall b = specExpSmall b - 4 := by
  intro b
  unfold ibmExpSmall specExpSmall
  ring

/-- C4: all seven concrete test vectors decode as stated:
`41 10 …` → +1.0, `C1 10 …` → −1.0, all-zero → +0.0 (the `zero` token is
the Python float `0.0`), `41 20 …` → +2.0, `41 30 …` → +3.0,
`41 3F FF FF FF FF FF FF` → `(2^53 − 1)/2^51 = 4 − 2⁻⁵¹`, whose shortest
decimal representation is `3.9999999999999996`, with the non-fatal
precision-loss flag set, and `2E 00 …` → the MissingNumeric null token. -/
theorem c4_ibm_to_double_test_vectors :
    ibm_to_double [0x41, 0x10, 0, 0, 0, 0, 0, 0] = .double 0x3FF0000000000000 false ∧
    ieeeBitsToRat 0x3FF0000000000000 = 1 ∧
    ibm_to_double [0xC1, 0x10, 0, 0, 0, 0, 0, 0] = .double 0xBFF0000000000000 false ∧
    ieeeBitsToRat 0xBFF0000000000000 = -1 ∧
    ibm_to_double zeros8 = .zero ∧
    ibm_to_double [0x41, 0x20, 0, 0, 0, 0, 0, 0] = .double 0x4000000000000000 false ∧
    ieeeBitsToRat 0x4000000000000000 = 2 ∧
    ibm_to_double [0x41, 0x30, 0, 0, 0, 0, 0, 0] = .double 0x4008000000000000 false ∧
    ieeeBitsToRat 0x4008000000000000 = 3 ∧
    ibm_to_double [0x41, 0x3F, 0xFF, 0xFF, 0xFF, 0xFF, 0xFF, 0xFF] =
      .double 0x400FFFFFFFFFFFFF true ∧
    ieeeBitsToRat 0x400FFFFFFFFFFFFF = ((2 ^ 53 - 1) / 2 ^ 51 : ℚ) ∧
    ibm_to_double missing8 = .missingNumeric :=
  ⟨by decide, by norm_num [ieeeBitsToRat, ieeeBitsToDyadic], by decide,
   by norm_num [ieeeBitsToRat, ieeeBitsToDyadic], by decide, by decide,
   by norm_num [ieeeBitsToRat, ieeeBitsToDyadic], by decide,
   by norm_num [ieeeBitsToRat, ieeeBitsToDyadic], by decide,
   by norm_num [ieeeBitsToRat, ieeeBitsToDyadic], by decide⟩

/-- C5 (amended): for a non-empty format name the decoder resolves
`'decode_' + nform.lower()` in the module globals; when that lookup fails
(any name outside date/time/datetime/string/sas_datetime) the record
decoder ABORTS with a `KeyError` instead of treating the value as a plain
number; only an empty `nform` selects the plain IBM-float path. -/
theorem c5_unknown_format_aborts :
    ∀ (enc : Enc) (raw : Bytes) (f : Namestr),
    (f.nform ≠ "" → lookupDecoder ("decode_" ++ pyLower f.nform) = none →
      unpack_record enc raw [f] =
        .error (.keyError ("decode_" ++ pyLower f.nform))) ∧
    (f.nform = "" → f.ntype = 1 →
      unpack_record enc raw [f] =
        (cellOfIbm (ibm_to_double (pySlice raw f.npos (f.npos + f.nlng)))).map
          (fun c => ([c], enc))) := by
  intro enc raw f
  constructor
  · intro h1 h2
    simp [unpack_record, h1, h2, except_bind_error, except_bind_ok]
  · intro h1 h2
    cases hc : cellOfIbm (ibm_to_double (pySlice raw f.npos (f.npos + f.nlng))) with
    | ok c =>
      simp [unpack_record, h1, h2, applyNumericDecoder, hc,
        except_bind_error, except_bind_ok, except_map_ok, except_map_error]
    | error e =>
      simp [unpack_record, h1, h2, applyNumericDecoder, hc,
        except_bind_error, except_bind_ok, except_map_ok, except_map_error]

/-- C5 witness: a numeric field formatted `DOLLAR` aborts with
`KeyError('decode_dollar')`. -/
theorem c5_unknown_format_aborts_witness :
    unpack_record .utf8 zeros8 [mkNumField "DOLLAR"] =
      .error (.keyError ("decode_" ++ pyLower (mkNumField "DOLLAR").nform)) :=
  (c5_unknown_format_aborts .utf8 zeros8 (mkNumField "DOLLAR")).1
    (by decide) (by decide)

/-- C5 counterexample: a numeric field with the (unrecognised) format name
`BEST` raises `KeyError` — it is NOT decoded via the IBM-float path, which
would have produced the row `[0.0]` here. -/
theorem c5_unknown_format_counterexample :
    unpack_record .utf8 zeros8 [mkNumField "BEST"] =
      .error (.keyError "decode_best") ∧
    unpack_record .utf8 zeros8 [mkNumField "BEST"] ≠
      .ok ([Cell.num 0], .utf8) := by
  decide

/-- C6 (amended): `decode_time` emits null EXACTLY when its payload is the
MissingNumeric sentinel (`2E 00 … 00`) OR the all-zero payload (the source
lists both patterns on line 404); every other payload either formats as a
time string or raises.  The doctest vector `44 C8 DC 00 …` (51420 seconds)
formats as `14:17:00`. -/
theorem c6_decode_time_null_condition :
    (∀ b : Bytes, decode_time b = .ok none ↔ (b = missing8 ∨ b = zeros8)) ∧
    decode_time [0x44, 0xC8, 0xDC, 0, 0, 0, 0, 0] = .ok (some "14:17:00") := by
  constructor
  · intro b
    by_cases h : b = missing8 ∨ b = zeros8
    · simp [decode_time, h]
    · simp only [decode_time, if_neg h]
      constructor
      · intro hc
        cases hib : ibm_to_double b <;> rw [hib] at hc <;> simp at hc
      · intro hcon
        exact absurd hcon h
  · decide

/-- C6 witness: the null condition applied to the all-zero payload. -/
theorem c6_decode_time_null_condition_witness :
    decode_time zeros8 = .ok none :=
  (c6_decode_time_null_condition.1 zeros8).mpr (Or.inr rfl)

/-- C6 counterexample: the all-zero payload (numeric value 0.0) emits null,
NOT `"00:00:00"` as the claim states. -/
theorem c6_zero_payload_counterexample :
    decode_time zeros8 = .ok none ∧
    decode_time zeros8 ≠ .ok (some "00:00:00") := by
  decide

/-- C7 (amended): for a first byte in `A`–`Z` or `_` with bytes 1..7 zero,
`ibm_to_double` returns `math.nan` — the same value as for any other
unrecognised single-leading-byte pattern.  The result is distinct from the
MissingNumeric token (`None`) and from `0.0`, but it IS the NaN result and
records nothing about the letter. -/
theorem c7_missing_special_is_nan (c : Nat)
    (h : (0x41 ≤ c ∧ c ≤ 0x5A) ∨ c = 0x5F) :
    ibm_to_double (c :: List.replicate 7 0) = .nan ∧
    (IbmResult.nan ≠ IbmResult.missingNumeric ∧ IbmResult.nan ≠ IbmResult.zero) := by
  have h0 : c ≠ 0 := by omega
  have hdot : c ≠ 0x2E := by omega
  have hr : rstripNul (c :: List.replicate 7 0) = [c] := by
    simp [rstripNul, rstripBy, h0]
  refine ⟨?_, by decide, by decide⟩
  unfold ibm_to_double
  rw [hr]
  simp [hdot]

/-- C7 witness: the special-missing payload `.B` decodes to `math.nan`. -/
theorem c7_missing_special_is_nan_witness :
    ibm_to_double (0x42 :: List.replicate 7 0) = .nan ∧
    (IbmResult.nan ≠ IbmResult.missingNumeric ∧ IbmResult.nan ≠ IbmResult.zero) :=
  c7_missing_special_is_nan 0x42 (Or.inl ⟨by decide, by decide⟩)

/-- C7 counterexample: `.A` and `.Z` payloads both decode to the SAME
`math.nan` value — there is no MissingSpecial token recording the letter,
and the result is not distinct from the NaN result. -/
theorem c7_missing_special_counterexample :
    ibm_to_double [0x41, 0, 0, 0, 0, 0, 0, 0] = .nan ∧
    ibm_to_double [0x5A, 0, 0, 0, 0, 0, 0, 0] = .nan ∧
    ibm_to_double [0x41, 0, 0, 0, 0, 0, 0, 0] =
      ibm_to_double [0x5A, 0, 0, 0, 0, 0, 0, 0] := by
  decide

/-- C8 (amended): a second run over the same bytes is byte-identical
PROVIDED the first run left the process-global encoding unchanged (no
Latin-1 fallback fired); the parser itself is a pure function of the input
bytes and the inherited encoding state. -/
theorem c8_rerun_deterministic_if_encoding_unchanged :
    ∀ (input : Bytes) (st1 : PState),
    xpt_to_csv .utf8 input = .ok st1 → st1.enc = .utf8 →
    xpt_to_csv st1.enc input = .ok st1 := by
  intro input st1 h henc
  rw [henc]
  exact h

/-- C8 witness: applying the determinism theorem at the empty input. -/
theorem c8_rerun_deterministic_witness :
    xpt_to_csv ((initPS Enc.utf8).enc) ([] : Bytes) = .ok (initPS .utf8) :=
  c8_rerun_deterministic_if_encoding_unchanged [] (initPS .utf8) rfl rfl

/-- C8 counterexample: on `charFile` the first run (from the initial UTF-8
state) decodes the first column as UTF-8 (`é`) and then flips the global
encoding to Latin-1 on the second column; a second run, starting from the
encoding the first run left behind, decodes the same bytes as `Ã©` — the
two runs' CSV outputs differ. -/
theorem c8_rerun_counterexample :
    resultEnc (xpt_to_csv .utf8 charFile) = some .latin1 ∧
    resultRows (xpt_to_csv .utf8 charFile) ≠
      resultRows (xpt_to_csv .latin1 charFile) := by
  decide

/-- C9 (amended): exactly one Member is appended per member-header record
ONLY when the first `parse_real_member` attempt already yields non-empty
`sas_version` and `os`; the retry path appends a second (abandoned) member
for the same header record. -/
theorem c9_single_append_on_first_parse_success (doc : Doc) (record : Bytes)
    (m : Member) (hv : doc.real_version = 8)
    (hp : parse_real_member 8 record = .ok m)
    (h1 : m.sas_version ≠ "") (h2 : m.os ≠ "") :
    get_member_data_aux 3 doc record 1 =
      .ok ({ doc with members := doc.members ++ [m] }, .awaitingSecondHeader) ∧
    ({ doc with members := doc.members ++ [m] } : Doc).members.length =
      doc.members.length + 1 := by
  constructor
  · unfold get_member_data_aux
    simp [hv, hp, h1, h2, except_bind_error, except_bind_ok]
  · simp

/-- C9 witness: the member header of the minimal file appends exactly the
one member `miniMember`. -/
theorem c9_single_append_witness :
    get_member_data_aux 3 initDoc recMemberData 1 =
      .ok ({ initDoc with members := initDoc.members ++ [miniMember] },
        .awaitingSecondHeader) ∧
    ({ initDoc with members := initDoc.members ++ [miniMember] } : Doc).members.length =
      initDoc.members.length + 1 :=
  c9_single_append_on_first_parse_success initDoc recMemberData miniMember
    rfl (by decide) (by decide) (by decide)

/-- C9 counterexample: on `recRetry` (blank version-8 `sas_version` field,
valid version-6 fields) the retry succeeds but leaves TWO members appended
to `document['members']` for the single member header record, not one. -/
theorem c9_retry_counterexample :
    (get_member_data_aux 3 initDoc recRetry 1).toOption.map
      (fun p => (p.1.members.length, p.2)) =
      some (2, MState.awaitingSecondHeader) := by
  decide

/-- C10: for EVERY input byte string the pre-shift biased exponent lies in
`[710, 1274]` — in particular it is at most 1274, which fits in 11 bits —
so the bit-length check on the shifted exponent can never exceed 63 and
neither the `FloatingPointError` branch nor the `struct.pack` failure is
reachable. -/
theorem c10_overflow_branch_unreachable :
    ∀ b : Bytes, (710 ≤ ibmExpSmall b ∧ ibmExpSmall b ≤ 1274) ∧
      ibm_to_double b ≠ .overflow ∧ ibm_to_double b ≠ .structError :=
  fun b => ⟨ibmExpSmall_bounds b, ibm_to_double_no_error b⟩
